import Mathlib

/-!
Shallow embedding of the map-flip-bot RCON client layer:
`src/services/crcon_client.py` (adaptive HTTP client), `src/tcp_client.py`
(length-framed TCP client) and the objectives payload builder in
`src/handlers/control_panel.py`.  JSON values are modelled by `JVal`,
Python dicts by association lists looked up front-to-back, and Python
truthiness by `JVal.truthy`.  Network effects are modelled by oracles:
`PostFn` stands for the `_post` primitive (exactly the shape the
repository's own tests monkeypatch), and `HttpResp` models one HTTP
response for the URL-candidate loop inside `_post`.
-/

namespace MapFlip

/-- JSON value model.  Mirrors the values that travel through the Python
client: strings, integers, booleans, null, arrays and objects (objects keep
insertion order, like Python dicts). -/
inductive JVal where
  | str (s : String)
  | num (n : Int)
  | bool (b : Bool)
  | null
  | arr (xs : List JVal)
  | obj (fields : List (String × JVal))

/-- First value bound to a key in an association list (Python dict `.get`). -/
def lookupKey {α : Type} (kvs : List (String × α)) (k : String) : Option α :=
  match kvs with
  | [] => none
  | kv :: rest => if kv.1 = k then some kv.2 else lookupKey rest k

/-- Python `dict.get` on a JSON value; on a non-object it yields `none`
(the client only ever applies `.get` to JSON objects on the paths the
claims exercise). -/
def JVal.getField : JVal → String → Option JVal
  | .obj kvs, k => lookupKey kvs k
  | _, _ => none

/-- Python truthiness of a JSON value. -/
def JVal.truthy : JVal → Bool
  | .str s => s != ""
  | .num n => n != 0
  | .bool b => b
  | .null => false
  | .arr xs => !xs.isEmpty
  | .obj kvs => !kvs.isEmpty

/-- Truthiness of an optional JSON value (`None` is falsy). -/
def jtruthy : Option JVal → Bool
  | none => false
  | some v => v.truthy

/-- Python `a or b` on optional JSON values: the first operand when it is
truthy, otherwise the second operand unchanged. -/
def pyOr (a b : Option JVal) : Option JVal :=
  if jtruthy a then a else b

/-- Rendering of a JSON value into an f-string.  Scalars render as Python
does; container rendering is abstracted to a tag because no claim depends
on `str()` of a container. -/
def JVal.render : JVal → String
  | .str s => s
  | .num n => toString n
  | .bool b => if b then "True" else "False"
  | .null => "None"
  | .arr _ => "<list>"
  | .obj _ => "<dict>"

/-- Python `s.rstrip("/")`: drop every trailing slash. -/
def rstripSlash (s : String) : String :=
  ⟨((s.data.reverse).dropWhile (· == '/')).reverse⟩

/-- Python `s.strip("/")`: drop leading and trailing slashes. -/
def stripSlash (s : String) : String :=
  ⟨(((s.data.dropWhile (· == '/')).reverse).dropWhile (· == '/')).reverse⟩

/-- One step of the candidate-list construction in `_candidate_urls`:
`if candidate not in variants: variants.append(candidate)`. -/
def dedupAppend (variants : List String) (candidate : String) : List String :=
  if candidate ∈ variants then variants else variants ++ [candidate]

/-- Model of `CrconClient._candidate_urls`: for a logical endpoint name, build
`f"{base}/{path}{suffix}".rstrip("/")` for the `api/`-prefixed and bare
path, each with suffix `""` and `"/"`, keeping first occurrences only. -/
def candidate_urls (base endpoint : String) : List String :=
  if endpoint = "" then []
  else
    let trimmed := stripSlash endpoint
    let paths := ["api/" ++ trimmed, trimmed]
    paths.foldl
      (fun variants path =>
        (["", "/"] : List String).foldl
          (fun variants suffix =>
            dedupAppend variants (rstripSlash (base ++ "/" ++ path ++ suffix)))
          variants)
      []

/-- State of one `CrconClient` instance: configured base URL and token,
the endpoint dict (`_endpoints`), the declared-argument dict
(`_endpoints_meta`, reduced to the `args` name list the client reads),
the memoization flag and the negotiated auth scheme. -/
structure ClientState where
  base : String
  token : String
  endpoints : List (String × Bool)
  endpointsMeta : List (String × List String)
  catalogReady : Bool
  authScheme : Option String

/-- Model of `CrconClient.__init__`: the base URL is right-stripped of slashes when
non-empty, the endpoint dicts start empty and no scheme is negotiated. -/
def init_state (base_url api_token : String) : ClientState :=
  { base := if base_url = "" then "" else rstripSlash base_url
    token := api_token
    endpoints := []
    endpointsMeta := []
    catalogReady := false
    authScheme := none }

/-- Model of `CrconClient._has`: `self._endpoints.get(name, False)`. -/
def hasEndpoint (st : ClientState) (name : String) : Bool :=
  (lookupKey st.endpoints name).getD false

/-- Model of `CrconClient._headers`: content type plus, when a token is configured,
an `Authorization` header using the negotiated scheme (default Bearer). -/
def headers (st : ClientState) : List (String × String) :=
  [("Content-Type", "application/json")] ++
    (if st.token != "" then
      [("Authorization", (st.authScheme.getD "Bearer") ++ " " ++ st.token)]
    else [])

/-- Model of `CrconClient._arg_name_for_map`: the first of `map_name`, `map`,
`name` declared among the endpoint's catalog args, defaulting to
`map_name`. -/
def arg_name_for_map (meta : List (String × List String)) (endpoint : String) : String :=
  let args := (lookupKey meta endpoint).getD []
  ((["map_name", "map", "name"].find? (fun c => args.contains c)).getD "map_name")

/-- The hard-coded fallback endpoint table `_DEFAULT_ENDPOINTS`. -/
def DEFAULT_ENDPOINTS : List String :=
  ["map", "set_next_map", "end_map", "do_end_map", "get_public_info", "get_map_rotation"]

/-- Install the default endpoint table with empty metadata and default the
auth scheme to Bearer when none is set (tail of `_ensure_catalog`). -/
def install_defaults (st : ClientState) : ClientState :=
  { st with
    endpoints := DEFAULT_ENDPOINTS.map (fun n => (n, true))
    endpointsMeta := DEFAULT_ENDPOINTS.map (fun n => (n, []))
    authScheme := some (st.authScheme.getD "Bearer") }

/-- Model of `CrconClient._ensure_catalog`.  When the catalog is already ready, or
base URL or token is empty, it only sets the ready flag.  Otherwise the
scheme loop runs: each iteration evaluates `self._url("get_api_documentation")`,
but the class defines no `_url` attribute (the helper is named
`_candidate_urls`), so every iteration raises `AttributeError` inside the
`try` before any HTTP request is issued and is swallowed by
`except Exception: continue`.  The endpoint dict therefore stays empty and
the hard-coded defaults are always installed with scheme Bearer. -/
def ensure_catalog (st : ClientState) : ClientState :=
  if st.catalogReady || st.base = "" || st.token = "" then
    { st with catalogReady := true }
  else
    { install_defaults { st with endpoints := [], endpointsMeta := [] } with
      catalogReady := true }

/-- Result shape of the `_post` primitive: success flag, message value and
optional parsed body — exactly the triple the repository's tests stub. -/
abbrev PostOutcome := Bool × JVal × Option JVal

/-- Oracle standing for `CrconClient._post` (endpoint name and JSON
payload in, `PostOutcome` back), the same seam the repository's own unit
tests monkeypatch. -/
abbrev PostFn := String → JVal → PostOutcome

/-- Body of `CrconClient.change_map` after `_ensure_catalog` has run,
over an arbitrary `_post` primitive.  Returns the `(ok, message)` pair
together with the ordered trace of `(endpoint, payload)` POSTs issued.
Structure follows the source: configuration check, then the single-step
`map` branch whose failure falls through, then the two-step
`set_next_map` + `end_map`/`do_end_map` branch, then the terminal
unsupported-endpoints return. -/
def change_map_core (st : ClientState) (post : PostFn) (map_name : String) :
    (Bool × String) × List (String × JVal) :=
  if st.base = "" || st.token = "" then
    ((false, "CRCON not configured"), [])
  else
    let mapStep :=
      if hasEndpoint st "map" then
        let arg := arg_name_for_map st.endpointsMeta "map"
        let payload := JVal.obj [(arg, .str map_name)]
        let r := post "map" payload
        (some r.1, [("map", payload)])
      else (none, [])
    if mapStep.1 = some true then
      ((true, "Map change requested via /api/map: " ++ map_name), mapStep.2)
    else if hasEndpoint st "set_next_map" then
      let arg := arg_name_for_map st.endpointsMeta "set_next_map"
      let payload := JVal.obj [(arg, .str map_name)]
      let rSet := post "set_next_map" payload
      let trace := mapStep.2 ++ [("set_next_map", payload)]
      if !rSet.1 then
        ((false, "set_next_map failed: " ++ rSet.2.1.render), trace)
      else
        match (["end_map", "do_end_map"].find? (fun c => hasEndpoint st c)) with
        | none =>
          ((false, "No end_map / do_end_map endpoint available after set_next_map"), trace)
        | some endEp =>
          let rEnd := post endEp (.obj [])
          let trace := trace ++ [(endEp, JVal.obj [])]
          if rEnd.1 then
            ((true, "Next map set and end triggered: " ++ map_name), trace)
          else
            ((false, endEp ++ " failed: " ++ rEnd.2.1.render), trace)
    else
      ((false, "No supported map-change endpoints found (map / set_next_map)."), mapStep.2)

/-- Model of `CrconClient.change_map`: `_ensure_catalog` first, then the dispatch
body. -/
def change_map (st : ClientState) (post : PostFn) (map_name : String) :
    (Bool × String) × List (String × JVal) :=
  change_map_core (ensure_catalog st) post map_name

/-- Model of `CrconClient.change_map_by_id`: configuration check, then a
`commands/execute` POST with a `ChangeMap` v2 envelope; failures come back
as a normalized triple, never as an exception.  (`_ensure_catalog` only
mutates catalog state this method does not consult.) -/
def change_map_by_id (st : ClientState) (post : PostFn) (map_id : String) : PostOutcome :=
  if st.base = "" || st.token = "" then
    (false, .str "CRCON not configured", none)
  else
    let r := post "commands/execute"
      (.obj [("command", .str "ChangeMap"), ("version", .num 2),
             ("body", .obj [("MapId", .str map_id)])])
    if r.1 then (true, .str ("ChangeMap sent for " ++ map_id), r.2.2)
    else (false, r.2.1, r.2.2)

/-- Model of `CrconClient.execute_command`: posts a command envelope to
`commands/execute` and RAISES (`RuntimeError(message)`, modelled as
`Except.error`) whenever the POST reports failure; on success it returns
`data or {}`. -/
def execute_command (post : PostFn) (command : String) (body : List (String × JVal))
    (version : Int) : Except JVal JVal :=
  let r := post "commands/execute"
    (.obj [("command", .str command), ("version", .num version), ("body", .obj body)])
  if !r.1 then .error r.2.1
  else .ok (r.2.2.getD (.obj []))

/-- Model of `CrconClient.get_client_reference`. -/
def get_client_reference (post : PostFn) (name : String) : Except JVal JVal :=
  execute_command post "GetClientReferenceData" [("Name", .str name)] 2

/-- Python `value == "literal"`: true exactly when the optional JSON value
is that string (equality with a string is `False` for every other JSON
type). -/
def isStrVal (v : Option JVal) (s : String) : Bool :=
  match v with
  | some (.str t) => t == s
  | _ => false

/-- Inner loop of `get_available_map_ids`: first dialogue parameter that
is an object named `MapName` yields the comma-split / listed map ids;
parameters whose `valueMember` is neither a string nor a list are
skipped, like the Python `for` falling through to the next iteration. -/
def parse_map_ids : List JVal → List String
  | [] => []
  | p :: rest =>
    match p with
    | .obj _ =>
      if isStrVal (p.getField "name") "MapName" then
        match pyOr (p.getField "valueMember") (p.getField "ValueMember") with
        | some (.str s) =>
          ((s.splitOn ",").map (fun item => item.trim)).filter (fun item => item != "")
        | some (.arr xs) =>
          (xs.filter (fun v => v.truthy)).map JVal.render
        | _ => parse_map_ids rest
      else parse_map_ids rest
    | _ => parse_map_ids rest

/-- Model of `CrconClient.get_available_map_ids`: wraps `get_client_reference` with
no exception handling, so a failing `execute_command` escapes to the
caller (modelled as `Except.error`). -/
def get_available_map_ids (post : PostFn) : Except JVal (List String) :=
  match get_client_reference post "AddMapToRotation" with
  | .error e => .error e
  | .ok data =>
    match pyOr (data.getField "dialogueParameters") (data.getField "DialogueParameters") with
    | some (.arr params) => .ok (parse_map_ids params)
    | _ => .ok (parse_map_ids [])

/-- Model of `CrconClient.get_objective_choices`: also propagates a failing
`execute_command`; on success keeps the object entries of the
`choices`/`Choices` list. -/
def get_objective_choices (post : PostFn) : Except JVal (List JVal) :=
  match get_client_reference post "SetSectorLayout" with
  | .error e => .error e
  | .ok data =>
    match pyOr (data.getField "choices") (data.getField "Choices") with
    | some (.arr xs) => .ok (xs.filter (fun v => match v with | .obj _ => true | _ => false))
    | _ => .ok []

/-- Model of `CrconClient.set_objectives`: wraps the selections as the `Objectives`
body of a `SetSectorLayout` v2 envelope and returns the `_post` triple
unchanged. -/
def set_objectives (post : PostFn) (selections : List JVal) : PostOutcome :=
  post "commands/execute"
    (.obj [("command", .str "SetSectorLayout"), ("version", .num 2),
           ("body", .obj [("Objectives", .arr selections)])])

/-- Model of `CrconClient.get_sector_layout`: the one facade method that catches
the `RuntimeError` from `execute_command` and converts it to `[]`. -/
def get_sector_layout (post : PostFn) : List JVal :=
  match execute_command post "GetSectorLayout" [] 2 with
  | .error _ => []
  | .ok data =>
    let result := (pyOr (data.getField "result") (data.getField "Result")).getD (.obj [])
    match pyOr (result.getField "layout") (result.getField "Layout") with
    | some (.arr xs) => xs.filter (fun v => match v with | .obj _ => true | _ => false)
    | _ => []

/-- Model of `ControlPanel.apply_objectives` payload construction:
`[{"Index": idx + 1, "Value": value} for idx, value in enumerate(selections)]`. -/
def apply_objectives_payload (selections : List String) : List JVal :=
  selections.enum.map
    (fun p => JVal.obj [("Index", .num ((p.1 : Int) + 1)), ("Value", .str p.2)])

/-- The full envelope `set_objectives` posts for a selection list. -/
def set_objectives_envelope (selections : List JVal) : JVal :=
  .obj [("command", .str "SetSectorLayout"), ("version", .num 2),
        ("body", .obj [("Objectives", .arr selections)])]

/-- One HTTP exchange as seen by `_post`'s URL loop: either the request
raised (connection error, modelled with its exception text), or a response
arrived with a status code, the JSON parse result of its body (`none` for
a body that fails to parse) and its raw text. -/
inductive HttpResp where
  | exnResp (msg : String)
  | resp (status : Nat) (parsed : Option JVal) (text : String)

/-- The candidate-URL loop of `CrconClient._post`: a 404 that is not on
the last candidate advances; any other non-2xx status is terminal; a 2xx
body is parsed and the remote `failed` flag decides success, with the
message drawn from `error` or `result` (default `"ok"`). -/
def post_impl (net : String → JVal → HttpResp) (payload : JVal) :
    List String → PostOutcome → PostOutcome
  | [], lastError => lastError
  | url :: rest, _lastError =>
    match net url payload with
    | .exnResp msg =>
      post_impl net payload rest (false, .str (url ++ " error: " ++ msg), none)
    | .resp status parsed text =>
      if status = 404 && !rest.isEmpty then
        post_impl net payload rest (false, .str ("HTTP 404: " ++ text.take 200), none)
      else if status / 100 != 2 then
        (false, .str ("HTTP " ++ toString status ++ ": " ++ text.take 200), none)
      else
        match parsed with
        | none => (false, .str (url ++ " parse error: invalid JSON"), none)
        | some data =>
          let failed := jtruthy (data.getField "failed")
          let message := (pyOr (data.getField "error") (data.getField "result")).getD (.str "ok")
          (!failed, message, some data)

/-- Model of `CrconClient._post` over an HTTP oracle: candidate URLs from the base
URL and endpoint name, empty candidate list is an invalid endpoint, and
the initial `last_error` is `(False, "Request failed", None)`. -/
def post_http (base : String) (net : String → JVal → HttpResp) : PostFn :=
  fun endpoint payload =>
    let urls := candidate_urls base endpoint
    if urls.isEmpty then (false, .str "Invalid endpoint", none)
    else post_impl net payload urls (false, .str "Request failed", none)

/-- Connection-relevant state of one `TcpRconClient`: whether `_writer`
is set and whether it reports closing. -/
structure TcpState where
  writerOpen : Bool
  writerClosing : Bool

/-- Big-endian decoding of the 4 header bytes
(`int.from_bytes(header, "big")`, unsigned). -/
def decode_be4 (b0 b1 b2 b3 : Nat) : Nat :=
  ((b0 % 256) * 256 + b1 % 256) * 65536 + (b2 % 256) * 256 + b3 % 256

/-- Model of `TcpRconClient.read_frame`: decode the 4-byte big-endian length; a
length that is `<= 0` or above 32,000,000 raises
`ValueError(f"Invalid frame length: {n}")`, and the client state is
returned unchanged — nothing closes or marks the writer; otherwise read
exactly that many bytes (the `body` oracle). -/
def read_frame (st : TcpState) (b0 b1 b2 b3 : Nat) (body : Nat → List Nat) :
    Except String (List Nat) × TcpState :=
  let n := decode_be4 b0 b1 b2 b3
  if n ≤ 0 || n > 32000000 then
    (.error ("Invalid frame length: " ++ toString n), st)
  else
    (.ok (body n), st)

/-- The reconnect test at the top of `TcpRconClient.execute`:
`self._writer is None or self._writer.is_closing()`. -/
def needs_reconnect (st : TcpState) : Bool :=
  !st.writerOpen || st.writerClosing

/-- Python dict assignment `fields[key] = v`: replace the value of an
existing key in place, else append the pair. -/
def objSet (fields : List (String × JVal)) (key : String) (v : JVal) : List (String × JVal) :=
  if fields.any (fun kv => kv.1 = key) then
    fields.map (fun kv => if kv.1 = key then (key, v) else kv)
  else fields ++ [(key, v)]

/-- Envelope construction inside `TcpRconClient.execute`:
`{"command": c, "version": 2, "body": body}`, with the stored token
injected into the body (`body["Token"]`) or a `meta` field only when
`include_token` is set and a truthy token is held. -/
def build_envelope (command : String) (body : List (String × JVal))
    (include_token : Bool) (token : Option JVal) (token_in_body : Bool) : JVal :=
  if include_token && jtruthy token then
    if token_in_body then
      .obj [("command", .str command), ("version", .num 2),
            ("body", .obj (objSet body "Token" (token.getD .null)))]
    else
      .obj [("command", .str command), ("version", .num 2),
            ("body", .obj body), ("meta", .obj [("token", token.getD .null)])]
  else
    .obj [("command", .str command), ("version", .num 2), ("body", .obj body)]

/-- Token extraction in `TcpRconClient.login`:
`res.get("token") or res.get("Token") or res.get("access_token")`. -/
def login_token_update (res : JVal) : Option JVal :=
  pyOr (res.getField "token") (pyOr (res.getField "Token") (res.getField "access_token"))

/-- Model of `TcpRconClient.login` outcome given the decoded response frame: the
method stores the extracted token (possibly absent) and returns the raw
response — it has no failure path of its own. -/
def login_result (res : JVal) : JVal × Option JVal :=
  (res, login_token_update res)

/-- The envelope `login` sends: `execute("Login", {"Password": pw},
include_token=False)` with the current stored token and placement policy
threaded through (they must not matter). -/
def login_envelope (password : String) (token : Option JVal) (token_in_body : Bool) : JVal :=
  build_envelope "Login" [("Password", .str password)] false token token_in_body

/-- The lazy-login trigger inside `execute`:
`if include_token and not self._token: await self.login()`. -/
def execute_triggers_login (include_token : Bool) (token : Option JVal) : Bool :=
  include_token && !jtruthy token

/-! Concrete fixtures used by witnesses and counterexamples. -/

/-- A ready catalog exposing only the two-step family, with a declared
`map` argument for `set_next_map` (mirrors the repository's fallback
test). -/
def stTwoStep : ClientState :=
  { base := "https://example.com", token := "t"
    endpoints := [("set_next_map", true), ("end_map", true)]
    endpointsMeta := [("set_next_map", ["map"])]
    catalogReady := true, authScheme := none }

/-- A ready catalog exposing `map`, `set_next_map` and `end_map` with no
declared argument metadata. -/
def stMapFallback : ClientState :=
  { base := "https://example.com", token := "t"
    endpoints := [("map", true), ("set_next_map", true), ("end_map", true)]
    endpointsMeta := []
    catalogReady := true, authScheme := none }

/-- A ready catalog exposing no map-change endpoint at all. -/
def stUnsupported : ClientState :=
  { base := "https://example.com", token := "t"
    endpoints := [("get_public_info", true)]
    endpointsMeta := []
    catalogReady := true, authScheme := none }

/-- A fresh configured client that has not yet built its catalog. -/
def stFresh : ClientState :=
  { base := "https://example.com", token := "t"
    endpoints := [], endpointsMeta := []
    catalogReady := false, authScheme := none }

/-- A `_post` oracle on which every request succeeds. -/
def postAllOk : PostFn := fun _ _ => (true, .str "set", none)

/-- A `_post` oracle on which the `map` endpoint fails and everything
else succeeds. -/
def postMapFails : PostFn := fun e _ =>
  if e = "map" then (false, .str "nope", none) else (true, .str "fine", none)

/-- The parsed body of a remote rejection: `failed` true with an error
message. -/
def rejectedBody : JVal :=
  .obj [("failed", .bool true), ("error", .str "rejected")]

/-- An HTTP oracle whose every response is a 2xx remote rejection. -/
def netRejected : String → JVal → HttpResp :=
  fun _ _ => .resp 200 (some rejectedBody) ""

/-- Instance of `_post` built over `netRejected` for a configured base URL. -/
def postRejected : PostFn := post_http "https://example.com" netRejected

/-! Shared helper lemmas. -/

/-- Once the catalog is marked ready, `_ensure_catalog` is a no-op. -/
theorem ensure_catalog_of_ready (st : ClientState) (h : st.catalogReady = true) :
    ensure_catalog st = st := by
  cases st
  simp_all [ensure_catalog]

/-- Appending to the empty string on the right changes nothing. -/
theorem str_append_empty (s : String) : s ++ "" = s := by
  show String.mk (s.data ++ []) = s
  rw [List.append_nil]

/-- Python's `rstrip("/")` absorbs a freshly appended trailing slash. -/
theorem rstrip_append_slash (s : String) : rstripSlash (s ++ "/") = rstripSlash s := by
  unfold rstripSlash
  have h : (s ++ "/").data = s.data ++ ['/'] := rfl
  rw [h]
  simp [List.reverse_append]

/-- C2: a received frame whose declared 4-byte big-endian length is 0 (or
above 32,000,000) makes `read_frame` fail with the framing `ValueError`,
but — against the claim — the connection is NOT marked closed: the writer
stays open and not closing, so `needs_reconnect` is false and the next
`execute` call reuses the corrupted stream instead of reconnecting.  The
two inputs evaluated are the zero header `00 00 00 00` and the header
`01 E8 48 01` declaring 32,000,001 bytes. -/
theorem C2_framing_error_leaves_connection_open :
    (read_frame ⟨true, false⟩ 0 0 0 0 (fun _ => [])).1 =
      .error "Invalid frame length: 0" ∧
    needs_reconnect (read_frame ⟨true, false⟩ 0 0 0 0 (fun _ => [])).2 = false ∧
    (read_frame ⟨true, false⟩ 1 232 72 1 (fun _ => [])).1 =
      .error "Invalid frame length: 32000001" ∧
    needs_reconnect (read_frame ⟨true, false⟩ 1 232 72 1 (fun _ => [])).2 = false := by
  refine ⟨rfl, rfl, ?_, rfl⟩
  rfl

/-- C6: on a ready catalog exposing neither `map` nor any of
`set_next_map` / `end_map` / `do_end_map`, `change_map` returns `ok=false`
with an empty POST trace — a normal return value, since the model (like
the source) has no raising path here. -/
theorem C6_unsupported_catalog_no_posts
    (st : ClientState) (post : PostFn) (map_name : String)
    (hready : st.catalogReady = true)
    (hmap : hasEndpoint st "map" = false)
    (hset : hasEndpoint st "set_next_map" = false)
    (_hend : hasEndpoint st "end_map" = false)
    (_hdo : hasEndpoint st "do_end_map" = false) :
    (change_map st post map_name).1.1 = false ∧
    (change_map st post map_name).2 = [] := by
  rw [change_map, ensure_catalog_of_ready st hready]
  by_cases hb : st.base = "" <;> by_cases ht : st.token = "" <;>
    simp [change_map_core, hmap, hset, hb, ht]

/-- Witness for C6 at a concrete catalog exposing only
`get_public_info`. -/
theorem C6_unsupported_catalog_no_posts_witness :
    (change_map stUnsupported postAllOk "Foy Warfare").1.1 = false ∧
    (change_map stUnsupported postAllOk "Foy Warfare").2 = [] :=
  C6_unsupported_catalog_no_posts stUnsupported postAllOk "Foy Warfare"
    rfl rfl rfl rfl rfl

/-- C9: the objectives payload lists the selections in input order with
1-based indices — position `i` of the built payload is exactly
`{"Index": i+1, "Value": selections[i]}` — `set_objectives` posts exactly
that payload wrapped as the `Objectives` body of a `SetSectorLayout` v2
envelope, and the concrete selection list `["A","B","C","A","B"]`
produces exactly the five indexed objects of the claim. -/
theorem C9_objectives_payload_order :
    (∀ (sels : List String) (i : Nat),
        (apply_objectives_payload sels)[i]? =
          sels[i]?.map
            (fun v => JVal.obj [("Index", .num ((i : Int) + 1)), ("Value", .str v)])) ∧
    (∀ (post : PostFn) (sels : List JVal),
        set_objectives post sels = post "commands/execute" (set_objectives_envelope sels)) ∧
    set_objectives_envelope (apply_objectives_payload ["A", "B", "C", "A", "B"]) =
      .obj [("command", .str "SetSectorLayout"), ("version", .num 2),
            ("body", .obj [("Objectives", .arr
              [.obj [("Index", .num 1), ("Value", .str "A")],
               .obj [("Index", .num 2), ("Value", .str "B")],
               .obj [("Index", .num 3), ("Value", .str "C")],
               .obj [("Index", .num 4), ("Value", .str "A")],
               .obj [("Index", .num 5), ("Value", .str "B")]])])] := by
  refine ⟨?_, fun post sels => rfl, rfl⟩
  intro sels i
  simp [apply_objectives_payload, List.getElem?_enum]
  cases sels[i]? <;> rfl

/-- C10: constructed with an empty base URL or empty token, catalog setup
only marks the catalog ready — the endpoint table stays empty and the
defaults are not installed — and `change_map` returns
`(false, "CRCON not configured")` with no POST issued. -/
theorem C10_unconfigured_client_no_requests
    (base_url api_token map_name : String) (post : PostFn)
    (h : base_url = "" ∨ api_token = "") :
    (ensure_catalog (init_state base_url api_token)).catalogReady = true ∧
    (ensure_catalog (init_state base_url api_token)).endpoints = [] ∧
    change_map (init_state base_url api_token) post map_name =
      ((false, "CRCON not configured"), []) := by
  rcases h with h | h <;>
    simp [ensure_catalog, init_state, change_map, change_map_core, h]

/-- Witness for C10 at an empty base URL. -/
theorem C10_unconfigured_client_no_requests_witness :
    (ensure_catalog (init_state "" "t")).catalogReady = true ∧
    (ensure_catalog (init_state "" "t")).endpoints = [] ∧
    change_map (init_state "" "t") postAllOk "Foy Warfare" =
      ((false, "CRCON not configured"), []) :=
  C10_unconfigured_client_no_requests "" "t" "Foy Warfare" postAllOk (Or.inl rfl)

/-- C5 counterexample: on a login response carrying none of the accepted
token keys, `login` does NOT fail — there is no `AuthError` path in the
code.  It stores no token and returns the raw response normally; the only
consequence is that the next token-requiring `execute` triggers another
login attempt. -/
theorem C5_missing_token_no_auth_error_cex :
    login_result (.obj [("result", .str "hello")]) =
      (.obj [("result", .str "hello")], none) ∧
    execute_triggers_login true
      (login_result (.obj [("result", .str "hello")])).2 = true :=
  ⟨rfl, rfl⟩

/-- C5 amended: `login` sends a `Login` command carrying only the
configured password — no token is injected regardless of the stored token
and placement policy — and stores the first truthy value among
`token` / `Token` / `access_token`; when none of those keys holds a
truthy value it stores no usable token and still returns the raw response
without raising, leaving the next token-requiring `execute` to retry the
login. -/
theorem C5_login_token_extraction
    (pw : String) (tok : Option JVal) (tib : Bool) (res : JVal) :
    login_envelope pw tok tib =
      .obj [("command", .str "Login"), ("version", .num 2),
            ("body", .obj [("Password", .str pw)])] ∧
    (login_result res).1 = res ∧
    (jtruthy (res.getField "token") = true →
       login_token_update res = res.getField "token") ∧
    (jtruthy (res.getField "token") = false →
       jtruthy (res.getField "Token") = true →
       login_token_update res = res.getField "Token") ∧
    (jtruthy (res.getField "token") = false →
       jtruthy (res.getField "Token") = false →
       login_token_update res = res.getField "access_token") ∧
    (jtruthy (res.getField "token") = false →
       jtruthy (res.getField "Token") = false →
       jtruthy (res.getField "access_token") = false →
       jtruthy (login_token_update res) = false ∧
       execute_triggers_login true (login_token_update res) = true) := by
  refine ⟨?_, rfl, ?_, ?_, ?_, ?_⟩
  · simp [login_envelope, build_envelope]
  · intro h1
    simp [login_token_update, pyOr, h1]
  · intro h1 h2
    simp [login_token_update, pyOr, h1, h2]
  · intro h1 h2
    simp [login_token_update, pyOr, h1, h2]
  · intro h1 h2 h3
    simp [login_token_update, execute_triggers_login, pyOr, h1, h2, h3]

/-- Witness for C5 amended: a response whose only accepted key is
`access_token` yields that token; one with no truthy accepted key leaves
the login trigger armed. -/
theorem C5_login_token_extraction_witness :
    login_envelope "pw" (some (.str "old")) true =
      .obj [("command", .str "Login"), ("version", .num 2),
            ("body", .obj [("Password", .str "pw")])] ∧
    login_token_update (.obj [("access_token", .str "tok")]) =
      some (.str "tok") ∧
    execute_triggers_login true
      (login_token_update (.obj [("ok", .bool true)])) = true := by
  have h1 := C5_login_token_extraction "pw" (some (.str "old")) true
    (.obj [("access_token", .str "tok")])
  have h2 := C5_login_token_extraction "pw" (some (.str "old")) true
    (.obj [("ok", .bool true)])
  exact ⟨h1.1, h1.2.2.2.2.1 rfl rfl, (h2.2.2.2.2.2 rfl rfl rfl).2⟩

/-- C8: catalog discovery can never see the Bearer probe rejected and the
Token probe succeed, because the probe body calls the undefined attribute
`self._url` (the helper is actually named `_candidate_urls`): every scheme
iteration raises `AttributeError` inside its `try` before any HTTP request
is issued, the exception is swallowed, and the client always falls back to
the default endpoint table with the FIRST scheme (Bearer).  Evaluating the
faithful model on any fresh configured client: the locked-in scheme is
Bearer, the endpoints are the hard-coded defaults, and every subsequent
request header authorizes with Bearer — the claimed Token lock-in is
unreachable. -/
theorem C8_discovery_never_locks_token_scheme
    (st : ClientState)
    (hfresh : st.catalogReady = false) (hscheme : st.authScheme = none)
    (hbase : st.base ≠ "") (htok : st.token ≠ "") :
    (ensure_catalog st).authScheme = some "Bearer" ∧
    (ensure_catalog st).endpoints = DEFAULT_ENDPOINTS.map (fun n => (n, true)) ∧
    headers (ensure_catalog st) =
      [("Content-Type", "application/json"),
       ("Authorization", "Bearer " ++ st.token)] := by
  simp [ensure_catalog, hfresh, hbase, htok, install_defaults, hscheme, headers]

/-- Witness for C8 at a concrete fresh configured client. -/
theorem C8_discovery_never_locks_token_scheme_witness :
    (ensure_catalog stFresh).authScheme = some "Bearer" ∧
    (ensure_catalog stFresh).endpoints = DEFAULT_ENDPOINTS.map (fun n => (n, true)) ∧
    headers (ensure_catalog stFresh) =
      [("Content-Type", "application/json"), ("Authorization", "Bearer " ++ stFresh.token)] :=
  C8_discovery_never_locks_token_scheme stFresh rfl rfl
    (by decide) (by decide)

/-- C1: on a ready catalog exposing `set_next_map` and an end endpoint but
not `map`, `change_map` posts first to `set_next_map` with the argument
name taken from the catalog entry (the first of `map_name`/`map`/`name`
declared there, defaulting to `map_name` when undeclared), then — only if
that POST succeeded — to the first of `end_map`/`do_end_map` the catalog
reports, with an empty body; if the `set_next_map` POST fails the trace
stops at that single POST and the result is `ok=false`. -/
theorem C1_two_step_change_map
    (st : ClientState) (post : PostFn) (map_name : String)
    (hready : st.catalogReady = true)
    (hbase : st.base ≠ "") (htok : st.token ≠ "")
    (hmap : hasEndpoint st "map" = false)
    (hset : hasEndpoint st "set_next_map" = true)
    (hend : hasEndpoint st "end_map" = true ∨ hasEndpoint st "do_end_map" = true) :
    (let argS := arg_name_for_map st.endpointsMeta "set_next_map"
     let payload := JVal.obj [(argS, .str map_name)]
     (lookupKey st.endpointsMeta "set_next_map" = none → argS = "map_name") ∧
     (argS = "map_name" ∨
        ((lookupKey st.endpointsMeta "set_next_map").getD []).contains argS = true) ∧
     ∃ endEp,
       (["end_map", "do_end_map"].find? (fun c => hasEndpoint st c)) = some endEp ∧
       ((post "set_next_map" payload).1 = false →
          change_map st post map_name =
            ((false, "set_next_map failed: " ++ (post "set_next_map" payload).2.1.render),
             [("set_next_map", payload)])) ∧
       ((post "set_next_map" payload).1 = true →
          (change_map st post map_name).2 =
            [("set_next_map", payload), (endEp, JVal.obj [])] ∧
          (change_map st post map_name).1.1 = (post endEp (JVal.obj [])).1)) := by
  have hcm : change_map st post map_name = change_map_core st post map_name := by
    rw [change_map, ensure_catalog_of_ready st hready]
  refine ⟨?_, ?_, ?_⟩
  · intro hnone
    simp [arg_name_for_map, hnone, List.find?]
  · rcases hfind : (["map_name", "map", "name"].find?
        (fun c => ((lookupKey st.endpointsMeta "set_next_map").getD []).contains c)) with _ | c
    · left
      simp only [arg_name_for_map]
      rw [hfind]
      rfl
    · right
      have hc := List.find?_some hfind
      simp only [arg_name_for_map]
      rw [hfind]
      simpa using hc
  · have hfindE : ∃ endEp,
        (["end_map", "do_end_map"].find? (fun c => hasEndpoint st c)) = some endEp := by
      rcases hend with h | h
      · exact ⟨"end_map", by simp [List.find?, h]⟩
      · by_cases he : hasEndpoint st "end_map" = true
        · exact ⟨"end_map", by simp [List.find?, he]⟩
        · have he' : hasEndpoint st "end_map" = false := by simpa using he
          exact ⟨"do_end_map", by simp [List.find?, h, he']⟩
    obtain ⟨endEp, hE⟩ := hfindE
    refine ⟨endEp, hE, ?_, ?_⟩
    · intro hfail
      rw [hcm]
      simp [change_map_core, hmap, hset, hbase, htok, hfail]
    · intro hok
      rw [hcm]
      cases hrE : (post endEp (JVal.obj [])).1 <;>
        simp [change_map_core, hmap, hset, hbase, htok, hok, hE, hrE]

/-- Witness for C1 on the catalog of the repository's own fallback test:
`set_next_map` declares the argument `map`, `end_map` is present and both
POSTs succeed. -/
theorem C1_two_step_change_map_witness :
    (let argS := arg_name_for_map stTwoStep.endpointsMeta "set_next_map"
     let payload := JVal.obj [(argS, .str "Hill 400 Warfare")]
     (lookupKey stTwoStep.endpointsMeta "set_next_map" = none → argS = "map_name") ∧
     (argS = "map_name" ∨
        ((lookupKey stTwoStep.endpointsMeta "set_next_map").getD []).contains argS = true) ∧
     ∃ endEp,
       (["end_map", "do_end_map"].find? (fun c => hasEndpoint stTwoStep c)) = some endEp ∧
       ((postAllOk "set_next_map" payload).1 = false →
          change_map stTwoStep postAllOk "Hill 400 Warfare" =
            ((false, "set_next_map failed: " ++ (postAllOk "set_next_map" payload).2.1.render),
             [("set_next_map", payload)])) ∧
       ((postAllOk "set_next_map" payload).1 = true →
          (change_map stTwoStep postAllOk "Hill 400 Warfare").2 =
            [("set_next_map", payload), (endEp, JVal.obj [])] ∧
          (change_map stTwoStep postAllOk "Hill 400 Warfare").1.1 =
            (postAllOk endEp (JVal.obj [])).1)) :=
  C1_two_step_change_map stTwoStep postAllOk "Hill 400 Warfare"
    rfl (by decide) (by decide) rfl rfl (Or.inl rfl)

/-- C7 counterexample: on a catalog exposing `map` AND the two-step
family, a failing `map` POST is not terminal — the code falls through and
still drives the two-step path to success, so `change_map` issues three
POSTs (`map`, `set_next_map`, `end_map`) even though `map` is present. -/
theorem C7_map_outcome_not_terminal_cex :
    hasEndpoint stMapFallback "map" = true ∧
    (postMapFails "map" (JVal.obj [("map_name", .str "Foy")])).1 = false ∧
    change_map stMapFallback postMapFails "Foy" =
      ((true, "Next map set and end triggered: Foy"),
       [("map", JVal.obj [("map_name", .str "Foy")]),
        ("set_next_map", JVal.obj [("map_name", .str "Foy")]),
        ("end_map", JVal.obj [])]) :=
  ⟨rfl, rfl, rfl⟩

/-- C7 amended: `change_map` tries the single-step `map` endpoint first
when the catalog exposes it, and a SUCCESSFUL `map` POST is terminal; but
a failing `map` POST falls through to the two-step `set_next_map` path
whenever the catalog also exposes `set_next_map`, and only when
`set_next_map` is absent does the call end (with the generic
unsupported-endpoints failure, after the single `map` POST). -/
theorem C7_map_endpoint_precedence
    (st : ClientState) (post : PostFn) (map_name : String)
    (hready : st.catalogReady = true)
    (hbase : st.base ≠ "") (htok : st.token ≠ "")
    (hmap : hasEndpoint st "map" = true) :
    (let argM := arg_name_for_map st.endpointsMeta "map"
     let payloadM := JVal.obj [(argM, .str map_name)]
     ((post "map" payloadM).1 = true →
        change_map st post map_name =
          ((true, "Map change requested via /api/map: " ++ map_name),
           [("map", payloadM)])) ∧
     ((post "map" payloadM).1 = false → hasEndpoint st "set_next_map" = false →
        change_map st post map_name =
          ((false, "No supported map-change endpoints found (map / set_next_map)."),
           [("map", payloadM)])) ∧
     ((post "map" payloadM).1 = false → hasEndpoint st "set_next_map" = true →
        ∃ rest, (change_map st post map_name).2 =
          ("map", payloadM) ::
          ("set_next_map",
             JVal.obj [(arg_name_for_map st.endpointsMeta "set_next_map", .str map_name)]) ::
          rest)) := by
  have hcm : change_map st post map_name = change_map_core st post map_name := by
    rw [change_map, ensure_catalog_of_ready st hready]
  refine ⟨?_, ?_, ?_⟩
  · intro hok
    rw [hcm]
    simp [change_map_core, hmap, hbase, htok, hok]
  · intro hfail hset
    rw [hcm]
    simp [change_map_core, hmap, hset, hbase, htok, hfail]
  · intro hfail hset
    rw [hcm]
    rcases hr2 : (post "set_next_map"
        (JVal.obj [(arg_name_for_map st.endpointsMeta "set_next_map", .str map_name)])).1 with _ | _
    · exact ⟨[], by simp [change_map_core, hmap, hset, hbase, htok, hfail, hr2]⟩
    · rcases hE : (["end_map", "do_end_map"].find? (fun c => hasEndpoint st c)) with _ | endEp
      · exact ⟨[], by simp [change_map_core, hmap, hset, hbase, htok, hfail, hr2, hE]⟩
      · refine ⟨[(endEp, JVal.obj [])], ?_⟩
        cases hrE : (post endEp (JVal.obj [])).1 <;>
          simp [change_map_core, hmap, hset, hbase, htok, hfail, hr2, hE, hrE]

/-- Witness for C7 amended on the three-endpoint catalog with a failing
`map` POST. -/
theorem C7_map_endpoint_precedence_witness :
    (let argM := arg_name_for_map stMapFallback.endpointsMeta "map"
     let payloadM := JVal.obj [(argM, .str "Foy")]
     ((postMapFails "map" payloadM).1 = true →
        change_map stMapFallback postMapFails "Foy" =
          ((true, "Map change requested via /api/map: " ++ "Foy"),
           [("map", payloadM)])) ∧
     ((postMapFails "map" payloadM).1 = false →
        hasEndpoint stMapFallback "set_next_map" = false →
        change_map stMapFallback postMapFails "Foy" =
          ((false, "No supported map-change endpoints found (map / set_next_map)."),
           [("map", payloadM)])) ∧
     ((postMapFails "map" payloadM).1 = false →
        hasEndpoint stMapFallback "set_next_map" = true →
        ∃ rest, (change_map stMapFallback postMapFails "Foy").2 =
          ("map", payloadM) ::
          ("set_next_map",
             JVal.obj [(arg_name_for_map stMapFallback.endpointsMeta "set_next_map", .str "Foy")]) ::
          rest)) :=
  C7_map_endpoint_precedence stMapFallback postMapFails "Foy"
    rfl (by decide) (by decide) rfl

/-- C3 counterexample: a remote rejection (`failed: true` on a 2xx
response) does escape to the caller of `get_available_map_ids` — the
underlying `execute_command` raises `RuntimeError(message)` (modelled as
`Except.error`) and `get_available_map_ids` has no handler, so the caller
receives an uncaught fault instead of a normalized
`(false, <message>, null)` outcome. -/
theorem C3_escaping_exception_cex :
    get_available_map_ids postRejected = .error (.str "rejected") ∧
    get_objective_choices postRejected = .error (.str "rejected") ∧
    execute_command postRejected "GetClientReferenceData" [("Name", .str "AddMapToRotation")] 2 =
      .error (.str "rejected") :=
  ⟨rfl, rfl, rfl⟩

/-- C3 amended: when the `commands/execute` POST fails, the generic
`execute_command` raises (`RuntimeError`, modelled as `Except.error`) and
`get_available_map_ids` / `get_objective_choices` propagate that fault to
the caller; the remaining facade operations do return normalized
outcomes: `change_map_by_id` and `set_objectives` hand back the
`(false, message, payload)` triple and `get_sector_layout` converts the
failure into `[]`. -/
theorem C3_failure_propagation
    (post : PostFn) (msg : JVal) (d : Option JVal)
    (h : ∀ payload, post "commands/execute" payload = (false, msg, d)) :
    (∀ command body version, execute_command post command body version = .error msg) ∧
    get_available_map_ids post = .error msg ∧
    get_objective_choices post = .error msg ∧
    get_sector_layout post = [] ∧
    (∀ st map_id, st.base ≠ "" → st.token ≠ "" →
       change_map_by_id st post map_id = (false, msg, d)) ∧
    (∀ sels, set_objectives post sels = (false, msg, d)) := by
  have hexec : ∀ command body version,
      execute_command post command body version = .error msg := by
    intro command body version
    simp [execute_command, h]
  refine ⟨hexec, ?_, ?_, ?_, ?_, ?_⟩
  · simp [get_available_map_ids, get_client_reference, hexec]
  · simp [get_objective_choices, get_client_reference, hexec]
  · simp [get_sector_layout, hexec]
  · intro st map_id hbase htok
    simp [change_map_by_id, hbase, htok, h]
  · intro sels
    simp [set_objectives, h]

/-- Witness for C3 amended over the concrete always-rejecting HTTP
oracle. -/
theorem C3_failure_propagation_witness :
    get_available_map_ids postRejected = .error (.str "rejected") ∧
    get_sector_layout postRejected = [] ∧
    change_map_by_id stFresh postRejected "hill400_day" =
      (false, .str "rejected", some rejectedBody) ∧
    set_objectives postRejected [] = (false, .str "rejected", some rejectedBody) := by
  have hmain := C3_failure_propagation postRejected (.str "rejected") (some rejectedBody)
    (fun _ => rfl)
  exact ⟨hmain.2.1, hmain.2.2.2.1,
    hmain.2.2.2.2.1 stFresh "hill400_day" (by decide) (by decide),
    hmain.2.2.2.2.2 []⟩

/-- C4 counterexample: for the endpoint name `map` and base
`https://example.com`, the generated candidate list has exactly TWO
entries — the `api/`-prefixed and the bare path, both without a trailing
slash — not the four claimed: the `rstrip("/")` applied to each candidate
erases the trailing-slash variants and the duplicate filter then drops
them. -/
theorem C4_two_candidates_cex :
    candidate_urls "https://example.com" "map" =
      ["https://example.com/api/map", "https://example.com/map"] ∧
    (candidate_urls "https://example.com" "map").length = 2 :=
  ⟨rfl, rfl⟩

/-- C4 amended: for every non-empty endpoint name the candidate list is
the `api/`-prefixed path followed by the bare path, both stripped of any
trailing slash (collapsing to a single entry when the two coincide); the
with-slash variants never survive because each candidate is right-stripped
before the duplicate check. -/
theorem C4_candidate_urls_two_variants (base endpoint : String)
    (h : endpoint ≠ "") :
    (let c1 := rstripSlash (base ++ "/" ++ ("api/" ++ stripSlash endpoint))
     let c2 := rstripSlash (base ++ "/" ++ stripSlash endpoint)
     candidate_urls base endpoint = if c2 = c1 then [c1] else [c1, c2]) := by
  unfold candidate_urls
  rw [if_neg h]
  simp only [List.foldl]
  rw [str_append_empty, str_append_empty, rstrip_append_slash, rstrip_append_slash]
  by_cases hc : rstripSlash (base ++ "/" ++ stripSlash endpoint) =
      rstripSlash (base ++ "/" ++ ("api/" ++ stripSlash endpoint)) <;>
    simp [dedupAppend, hc]

/-- Witness for C4 amended at the endpoint name `map`, where the two
candidates differ. -/
theorem C4_candidate_urls_two_variants_witness :
    (let c1 := rstripSlash ("https://example.com" ++ "/" ++ ("api/" ++ stripSlash "map"))
     let c2 := rstripSlash ("https://example.com" ++ "/" ++ stripSlash "map")
     candidate_urls "https://example.com" "map" = if c2 = c1 then [c1] else [c1, c2]) :=
  C4_candidate_urls_two_variants "https://example.com" "map" (by decide)

end MapFlip
